import Mathlib

/-!
Shallow embedding of `temperature_systems_controller.cpp` (the
`TemperatureSystemsControllerNode` ROS2 node) and proofs of the spec's
claims about it.

Modelling conventions:
- `current_temperature` is a C++ `short` (16-bit signed); we model it as an
  `Int` together with the wrap-around `wrap16` applied exactly where the C++
  code stores into the `short` field with a possibly out-of-range value
  (the `+= is_increment ? 1 : -1` line).
- `rand()` draws are modelled as explicit natural-number inputs: the code
  only ever uses `rand() % k`, so each draw is a `Nat` argument (`r % k`
  reproduces the C++ expression exactly).
- The blocking `while` loop of the action callback is modelled with an
  explicit fuel parameter; exhausting fuel yields the `running` outcome,
  representing a still-active (possibly forever-stalling) task.
- Cancellation is modelled as a predicate on the iteration index: iteration
  `i` observes a cancel request iff `cancel i = true` (this is the
  `goalHandle->is_canceling()` poll at the top of each iteration).
-/

namespace TemperatureControl

/-- Storage into a C++ 16-bit signed `short`: reduce modulo 2^16 into
[-32768, 32767] (two's complement wrap-around). -/
def wrap16 (x : Int) : Int := (x + 32768) % 65536 - 32768

/-- `current_temperature = rand() % 85 + 15;` in the node constructor:
the startup value of the temperature as a function of the `rand()` draw. -/
def node_constructor_temperature (r : Nat) : Int := ((r % 85 + 15 : Nat) : Int)

/-- Response message of the `IncrementDecrementTemperature` service:
`{success, temperature, message}`. -/
structure StepResponse where
  success : Bool
  temperature : Int
  message : String
deriving DecidableEq, Repr

/-- Full effect of one call to `increment_decrement_temperature_callback`:
the response it fills in, the node's `current_temperature` after the call,
and the sleep it performed (`none` when it refused without sleeping). -/
structure StepOutput where
  response : StepResponse
  new_temperature : Int
  slept : Option Nat
deriving DecidableEq, Repr

/-- `rand() % 400 + 100`: the sleep duration (in ms) of a successful step,
as a function of the `rand()` draw. -/
def step_sleep_duration (r : Nat) : Nat := r % 400 + 100

/-- `increment_decrement_temperature_callback`, lines 102-124.
`r1` is the draw for `bool can_increase_temperature = rand() % 2;`
(refuses when it is 0), `r2` the draw for the sleep duration, `temp` the
node's `current_temperature` at entry. -/
def increment_decrement_temperature_callback (is_increment : Bool) (r1 r2 : Nat)
    (temp : Int) : StepOutput :=
  if r1 % 2 = 0 then
    { response :=
        { success := false
          temperature := temp
          message := "Temperature cannot be " ++
            (if is_increment then "increased" else "decreased") }
      new_temperature := temp
      slept := none }
  else
    let t2 := wrap16 (temp + (if is_increment then 1 else -1))
    { response :=
        { success := true
          temperature := t2
          message := "Temperature " ++
            (if is_increment then "increased" else "decreased") ++ " successfully" }
      new_temperature := t2
      slept := some (step_sleep_duration r2) }

/-- `get_current_temperature_callback`, lines 93-99: fills
`response->temperature` with `current_temperature` and leaves the state
unchanged. Returns (response temperature, state after the call). -/
def get_current_temperature_callback (temp : Int) : Int × Int := (temp, temp)

/-- `temperature_monitor_callback`, lines 83-90: publishes the current
temperature and leaves the state unchanged. Returns (published message
data, state after the call). -/
def temperature_monitor_callback (temp : Int) : Int × Int := (temp, temp)

/-- `rclcpp_action::GoalResponse` values used by the goal handler. -/
inductive GoalResponse where
  | REJECT
  | ACCEPT_AND_EXECUTE
deriving DecidableEq, Repr

/-- `rclcpp_action::CancelResponse` values used by the cancel handler. -/
inductive CancelResponse where
  | ACCEPT
  | REJECT
deriving DecidableEq, Repr

/-- `handle_set_temperature_action_callback`, lines 127-136: takes the
`action_server_busy` flag, returns the goal response and the flag after
the call (set to `true` exactly when the goal is accepted). -/
def handle_set_temperature_action_callback (busy : Bool) : GoalResponse × Bool :=
  if busy then (GoalResponse.REJECT, busy)
  else (GoalResponse.ACCEPT_AND_EXECUTE, true)

/-- `cancel_set_temperature_action_callback`, lines 139-144: returns
`ACCEPT` for every goal handle, independent of any controller state. -/
def cancel_set_temperature_action_callback {α : Type} (_goalHandle : α) :
    CancelResponse :=
  CancelResponse.ACCEPT

/-- `SetTemperature::Result`: the code only ever assigns `temperature`;
the `success` and `message` assignments are commented out, modelled as
`Option` fields defaulting to `none`. -/
structure SetTemperatureResult where
  temperature : Int
  success : Option Bool := none
  message : Option String := none
deriving DecidableEq, Repr

/-- `SetTemperature::Feedback`: `{temperature, progress}`. -/
structure SetTemperatureFeedback where
  temperature : Int
  progress : Int
deriving DecidableEq, Repr

/-- Terminal status of a run of the action execution loop. `running` means
the fuel ran out while the loop was still iterating (the real loop would
still be going; in particular `action_server_busy` is still set). -/
inductive TaskOutcome where
  | succeeded (result : SetTemperatureResult)
  | canceled (result : SetTemperatureResult)
  | running
deriving DecidableEq, Repr

/-- Observable outcome of (a fuel-bounded prefix of) one accepted task:
terminal status, the feedback messages published in order, the
`action_server_busy` flag after the run, and the number of
increment/decrement service invocations performed. -/
structure RunResult where
  outcome : TaskOutcome
  feedbacks : List SetTemperatureFeedback
  busy : Bool
  steps : Nat
deriving DecidableEq, Repr

/-- `feedback->progress = (_current_temperature - initial_temperature) * 100 /
(target_temperature - initial_temperature);` — C++ `int` division truncates
toward zero, which is `Int.tdiv`. -/
def set_temperature_progress (initialT targetT cur : Int) : Int :=
  Int.tdiv ((cur - initialT) * 100) (targetT - initialT)

/-- The `while (_current_temperature != target_temperature)` loop of
`accepted_set_temperature_action_callback`, lines 159-194, plus the two
exit paths. `i` is the iteration index, `cur` the local
`_current_temperature`, `fuel` bounds the number of iterations modelled.
Each iteration: poll `cancel i`; on cancel, call `canceled(result)` with
only `temperature` set and clear the busy flag. Otherwise call the
increment/decrement service with direction `is_increment` and draws
`rnd i`, take the new value from the response, publish one feedback with
the progress formula, and loop. On `cur = targetT`, call `succeed(result)`
with only `temperature` set and clear the busy flag. -/
def set_temperature_loop (targetT initialT : Int) (is_increment : Bool)
    (cancel : Nat → Bool) (rnd : Nat → Nat × Nat) :
    Nat → Int → Nat → RunResult
  | _, cur, 0 =>
    if cur = targetT then
      { outcome := TaskOutcome.succeeded { temperature := cur }
        feedbacks := [], busy := false, steps := 0 }
    else
      { outcome := TaskOutcome.running, feedbacks := [], busy := true, steps := 0 }
  | i, cur, fuel + 1 =>
    if cur = targetT then
      { outcome := TaskOutcome.succeeded { temperature := cur }
        feedbacks := [], busy := false, steps := 0 }
    else if cancel i then
      { outcome := TaskOutcome.canceled { temperature := cur }
        feedbacks := [], busy := false, steps := 0 }
    else
      let out := increment_decrement_temperature_callback is_increment
        (rnd i).1 (rnd i).2 cur
      let cur2 := out.response.temperature
      let fb : SetTemperatureFeedback :=
        { temperature := cur2
          progress := set_temperature_progress initialT targetT cur2 }
      let rest := set_temperature_loop targetT initialT is_increment cancel rnd
        (i + 1) cur2 fuel
      { outcome := rest.outcome
        feedbacks := fb :: rest.feedbacks
        busy := rest.busy
        steps := rest.steps + 1 }

/-- `accepted_set_temperature_action_callback`, lines 146-194:
`initial_temperature` and `_current_temperature` are snapshots of
`current_temperature`; `is_increment = target_temperature >
current_temperature`; then the loop runs from iteration 0. -/
def accepted_set_temperature_action_callback (goal_temperature current_temperature : Int)
    (cancel : Nat → Bool) (rnd : Nat → Nat × Nat) (fuel : Nat) : RunResult :=
  set_temperature_loop goal_temperature current_temperature
    (decide (goal_temperature > current_temperature)) cancel rnd
    0 current_temperature fuel

/-! ## Helper lemmas -/

/-- Storing an in-range value into the 16-bit field leaves it unchanged. -/
theorem wrap16_eq_self (x : Int) (h1 : -32768 ≤ x) (h2 : x ≤ 32767) :
    wrap16 x = x := by
  unfold wrap16
  omega

/-- Success branch of the step callback, as an explicit record. -/
theorem step_not_refused (inc : Bool) (r1 r2 : Nat) (temp : Int) (hr : r1 % 2 ≠ 0) :
    increment_decrement_temperature_callback inc r1 r2 temp =
      { response :=
          { success := true
            temperature := wrap16 (temp + (if inc then 1 else -1))
            message := "Temperature " ++
              (if inc then "increased" else "decreased") ++ " successfully" }
        new_temperature := wrap16 (temp + (if inc then 1 else -1))
        slept := some (step_sleep_duration r2) } := by
  unfold increment_decrement_temperature_callback
  rw [if_neg hr]

/-- Refusal branch of the step callback, as an explicit record. -/
theorem step_refused_eq (inc : Bool) (r1 r2 : Nat) (temp : Int) (hr : r1 % 2 = 0) :
    increment_decrement_temperature_callback inc r1 r2 temp =
      { response :=
          { success := false
            temperature := temp
            message := "Temperature cannot be " ++
              (if inc then "increased" else "decreased") }
        new_temperature := temp
        slept := none } := by
  unfold increment_decrement_temperature_callback
  rw [if_pos hr]

/-- The temperature as of the last published feedback, or `d` (the value at
task start resp. at the current iteration) when none was published. -/
def last_temperature (d : Int) : List SetTemperatureFeedback → Int
  | [] => d
  | fb :: rest => last_temperature fb.temperature rest

/-- Exit equation: when the local value equals the target the loop returns
at once through `succeed`, clearing the busy flag. -/
theorem loop_succeed (tT iT : Int) (inc : Bool) (cancel : Nat → Bool)
    (rnd : Nat → Nat × Nat) (i : Nat) (cur : Int) (fuel : Nat) (h1 : cur = tT) :
    set_temperature_loop tT iT inc cancel rnd i cur fuel =
      { outcome := TaskOutcome.succeeded { temperature := cur }
        feedbacks := [], busy := false, steps := 0 } := by
  cases fuel <;> simp [set_temperature_loop, h1]

/-- Exit equation: fuel exhaustion while still short of the target leaves
the task running with the busy flag still set. -/
theorem loop_out_of_fuel (tT iT : Int) (inc : Bool) (cancel : Nat → Bool)
    (rnd : Nat → Nat × Nat) (i : Nat) (cur : Int) (h1 : cur ≠ tT) :
    set_temperature_loop tT iT inc cancel rnd i cur 0 =
      { outcome := TaskOutcome.running, feedbacks := [], busy := true, steps := 0 } := by
  simp [set_temperature_loop, h1]

/-- Exit equation: a cancel request observed at an iteration boundary ends
the loop through `canceled`, with only the result temperature set. -/
theorem loop_cancel_exit (tT iT : Int) (inc : Bool) (cancel : Nat → Bool)
    (rnd : Nat → Nat × Nat) (i : Nat) (cur : Int) (fuel : Nat)
    (h1 : cur ≠ tT) (h2 : cancel i = true) :
    set_temperature_loop tT iT inc cancel rnd i cur (fuel + 1) =
      { outcome := TaskOutcome.canceled { temperature := cur }
        feedbacks := [], busy := false, steps := 0 } := by
  simp [set_temperature_loop, h1, h2]

/-- Iteration equation: a non-cancelled iteration short of the target
invokes the step service once, takes the new local value from the step
response, publishes exactly one feedback carrying that value and the
progress formula, and continues. -/
theorem loop_iterate (tT iT : Int) (inc : Bool) (cancel : Nat → Bool)
    (rnd : Nat → Nat × Nat) (i : Nat) (cur : Int) (fuel : Nat)
    (h1 : cur ≠ tT) (h2 : cancel i = false) :
    set_temperature_loop tT iT inc cancel rnd i cur (fuel + 1) =
      { outcome := (set_temperature_loop tT iT inc cancel rnd (i + 1)
          (increment_decrement_temperature_callback inc (rnd i).1 (rnd i).2
            cur).response.temperature fuel).outcome
        feedbacks :=
          { temperature := (increment_decrement_temperature_callback inc (rnd i).1
              (rnd i).2 cur).response.temperature
            progress := set_temperature_progress iT tT
              (increment_decrement_temperature_callback inc (rnd i).1 (rnd i).2
                cur).response.temperature } ::
          (set_temperature_loop tT iT inc cancel rnd (i + 1)
            (increment_decrement_temperature_callback inc (rnd i).1 (rnd i).2
              cur).response.temperature fuel).feedbacks
        busy := (set_temperature_loop tT iT inc cancel rnd (i + 1)
          (increment_decrement_temperature_callback inc (rnd i).1 (rnd i).2
            cur).response.temperature fuel).busy
        steps := (set_temperature_loop tT iT inc cancel rnd (i + 1)
          (increment_decrement_temperature_callback inc (rnd i).1 (rnd i).2
            cur).response.temperature fuel).steps + 1 } := by
  simp [set_temperature_loop, h1, h2]

/-- The busy flag after a run is cleared exactly when the run terminated
(succeeded or cancelled); a still-running task keeps it set. -/
theorem loop_busy_iff (tT iT : Int) (inc : Bool) (cancel : Nat → Bool)
    (rnd : Nat → Nat × Nat) (fuel : Nat) :
    ∀ (i : Nat) (cur : Int),
      ((set_temperature_loop tT iT inc cancel rnd i cur fuel).busy = false ↔
        (set_temperature_loop tT iT inc cancel rnd i cur fuel).outcome ≠
          TaskOutcome.running) := by
  induction fuel with
  | zero =>
    intro i cur
    by_cases h1 : cur = tT
    · rw [loop_succeed tT iT inc cancel rnd i cur 0 h1]
      simp
    · rw [loop_out_of_fuel tT iT inc cancel rnd i cur h1]
      simp
  | succ fuel ih =>
    intro i cur
    by_cases h1 : cur = tT
    · rw [loop_succeed tT iT inc cancel rnd i cur (fuel + 1) h1]
      simp
    · by_cases h2 : cancel i = true
      · rw [loop_cancel_exit tT iT inc cancel rnd i cur fuel h1 h2]
        simp
      · have hf : cancel i = false := by simpa using h2
        rw [loop_iterate tT iT inc cancel rnd i cur fuel h1 hf]
        exact ih (i + 1) _

/-- Exactly one feedback message is published per step-service invocation. -/
theorem loop_feedback_count (tT iT : Int) (inc : Bool) (cancel : Nat → Bool)
    (rnd : Nat → Nat × Nat) (fuel : Nat) :
    ∀ (i : Nat) (cur : Int),
      (set_temperature_loop tT iT inc cancel rnd i cur fuel).feedbacks.length =
        (set_temperature_loop tT iT inc cancel rnd i cur fuel).steps := by
  induction fuel with
  | zero =>
    intro i cur
    by_cases h1 : cur = tT
    · rw [loop_succeed tT iT inc cancel rnd i cur 0 h1]
      rfl
    · rw [loop_out_of_fuel tT iT inc cancel rnd i cur h1]
      rfl
  | succ fuel ih =>
    intro i cur
    by_cases h1 : cur = tT
    · rw [loop_succeed tT iT inc cancel rnd i cur (fuel + 1) h1]
      rfl
    · by_cases h2 : cancel i = true
      · rw [loop_cancel_exit tT iT inc cancel rnd i cur fuel h1 h2]
        rfl
      · have hf : cancel i = false := by simpa using h2
        rw [loop_iterate tT iT inc cancel rnd i cur fuel h1 hf]
        simp [ih (i + 1)]

/-- Every published feedback satisfies the progress formula at its own
temperature value. -/
theorem loop_feedback_progress (tT iT : Int) (inc : Bool) (cancel : Nat → Bool)
    (rnd : Nat → Nat × Nat) (fuel : Nat) :
    ∀ (i : Nat) (cur : Int),
      ∀ fb ∈ (set_temperature_loop tT iT inc cancel rnd i cur fuel).feedbacks,
        fb.progress = set_temperature_progress iT tT fb.temperature := by
  induction fuel with
  | zero =>
    intro i cur fb hfb
    by_cases h1 : cur = tT
    · rw [loop_succeed tT iT inc cancel rnd i cur 0 h1] at hfb
      simp at hfb
    · rw [loop_out_of_fuel tT iT inc cancel rnd i cur h1] at hfb
      simp at hfb
  | succ fuel ih =>
    intro i cur fb hfb
    by_cases h1 : cur = tT
    · rw [loop_succeed tT iT inc cancel rnd i cur (fuel + 1) h1] at hfb
      simp at hfb
    · by_cases h2 : cancel i = true
      · rw [loop_cancel_exit tT iT inc cancel rnd i cur fuel h1 h2] at hfb
        simp at hfb
      · have hf : cancel i = false := by simpa using h2
        rw [loop_iterate tT iT inc cancel rnd i cur fuel h1 hf] at hfb
        rcases List.mem_cons.mp hfb with h | h
        · subst h
          rfl
        · exact ih (i + 1) _ fb h

/-- Whenever a run ends through `canceled`, the result carries the value as
of the last completed step (the last published feedback, or the start
value when none was), the optional success/message fields stay empty, the
busy flag is cleared, and nothing follows the cancellation. -/
theorem loop_canceled_result (tT iT : Int) (inc : Bool) (cancel : Nat → Bool)
    (rnd : Nat → Nat × Nat) (fuel : Nat) :
    ∀ (i : Nat) (cur : Int) (r : SetTemperatureResult),
      (set_temperature_loop tT iT inc cancel rnd i cur fuel).outcome =
          TaskOutcome.canceled r →
        r.success = none ∧ r.message = none ∧
        r.temperature = last_temperature cur
          (set_temperature_loop tT iT inc cancel rnd i cur fuel).feedbacks ∧
        (set_temperature_loop tT iT inc cancel rnd i cur fuel).busy = false := by
  induction fuel with
  | zero =>
    intro i cur r h
    by_cases h1 : cur = tT
    · rw [loop_succeed tT iT inc cancel rnd i cur 0 h1] at h
      simp at h
    · rw [loop_out_of_fuel tT iT inc cancel rnd i cur h1] at h
      simp at h
  | succ fuel ih =>
    intro i cur r h
    by_cases h1 : cur = tT
    · rw [loop_succeed tT iT inc cancel rnd i cur (fuel + 1) h1] at h
      simp at h
    · by_cases h2 : cancel i = true
      · rw [loop_cancel_exit tT iT inc cancel rnd i cur fuel h1 h2] at h ⊢
        simp only [TaskOutcome.canceled.injEq] at h
        subst h
        exact ⟨rfl, rfl, rfl, rfl⟩
      · have hf : cancel i = false := by simpa using h2
        rw [loop_iterate tT iT inc cancel rnd i cur fuel h1 hf] at h ⊢
        exact ih (i + 1) _ r h

/-- Increment direction: starting at or below an in-range target, the
iteration-by-iteration values never decrease and never pass the target
(each step repeats the value or raises it by one). -/
theorem loop_mono_up (tT iT : Int) (cancel : Nat → Bool) (rnd : Nat → Nat × Nat)
    (htT : tT ≤ 32767) (fuel : Nat) :
    ∀ (i : Nat) (cur : Int), -32768 ≤ cur → cur ≤ tT →
      List.Chain' (fun a b => a ≤ b)
        (cur :: ((set_temperature_loop tT iT true cancel rnd i cur fuel).feedbacks.map
          SetTemperatureFeedback.temperature)) ∧
      ∀ v ∈ (set_temperature_loop tT iT true cancel rnd i cur fuel).feedbacks.map
          SetTemperatureFeedback.temperature, -32768 ≤ v ∧ v ≤ tT := by
  induction fuel with
  | zero =>
    intro i cur hlo hhi
    by_cases h1 : cur = tT
    · rw [loop_succeed tT iT true cancel rnd i cur 0 h1]
      simp
    · rw [loop_out_of_fuel tT iT true cancel rnd i cur h1]
      simp
  | succ fuel ih =>
    intro i cur hlo hhi
    by_cases h1 : cur = tT
    · rw [loop_succeed tT iT true cancel rnd i cur (fuel + 1) h1]
      simp
    · by_cases h2 : cancel i = true
      · rw [loop_cancel_exit tT iT true cancel rnd i cur fuel h1 h2]
        simp
      · have hf : cancel i = false := by simpa using h2
        have hlt : cur < tT := lt_of_le_of_ne hhi h1
        have hcur2 : (increment_decrement_temperature_callback true (rnd i).1 (rnd i).2
              cur).response.temperature = cur ∨
            (increment_decrement_temperature_callback true (rnd i).1 (rnd i).2
              cur).response.temperature = cur + 1 := by
          by_cases hr : (rnd i).1 % 2 = 0
          · left
            rw [step_refused_eq true (rnd i).1 (rnd i).2 cur hr]
          · right
            rw [step_not_refused true (rnd i).1 (rnd i).2 cur hr]
            exact wrap16_eq_self (cur + 1) (by omega) (by omega)
        rw [loop_iterate tT iT true cancel rnd i cur fuel h1 hf]
        rcases hcur2 with hc | hc <;> rw [hc]
        · obtain ⟨hch, hbd⟩ := ih (i + 1) cur hlo hhi
          refine ⟨List.chain'_cons.mpr ⟨le_refl cur, hch⟩, ?_⟩
          intro v hv
          rcases List.mem_cons.mp hv with hv | hv
          · rw [hv]
            exact ⟨hlo, hhi⟩
          · exact hbd v hv
        · obtain ⟨hch, hbd⟩ := ih (i + 1) (cur + 1) (by omega) (by omega)
          have hb1 : (-32768 : Int) ≤ cur + 1 := by omega
          have hb2 : cur + 1 ≤ tT := by omega
          refine ⟨List.chain'_cons.mpr ⟨le_of_lt (lt_add_one cur), hch⟩, ?_⟩
          intro v hv
          rcases List.mem_cons.mp hv with hv | hv
          · rw [hv]
            exact ⟨hb1, hb2⟩
          · exact hbd v hv

/-- Decrement direction: starting at or above an in-range target, the
iteration-by-iteration values never increase and never pass the target
(each step repeats the value or lowers it by one). -/
theorem loop_mono_down (tT iT : Int) (cancel : Nat → Bool) (rnd : Nat → Nat × Nat)
    (htT : -32768 ≤ tT) (fuel : Nat) :
    ∀ (i : Nat) (cur : Int), tT ≤ cur → cur ≤ 32767 →
      List.Chain' (fun a b => b ≤ a)
        (cur :: ((set_temperature_loop tT iT false cancel rnd i cur fuel).feedbacks.map
          SetTemperatureFeedback.temperature)) ∧
      ∀ v ∈ (set_temperature_loop tT iT false cancel rnd i cur fuel).feedbacks.map
          SetTemperatureFeedback.temperature, tT ≤ v ∧ v ≤ 32767 := by
  induction fuel with
  | zero =>
    intro i cur hlo hhi
    by_cases h1 : cur = tT
    · rw [loop_succeed tT iT false cancel rnd i cur 0 h1]
      simp
    · rw [loop_out_of_fuel tT iT false cancel rnd i cur h1]
      simp
  | succ fuel ih =>
    intro i cur hlo hhi
    by_cases h1 : cur = tT
    · rw [loop_succeed tT iT false cancel rnd i cur (fuel + 1) h1]
      simp
    · by_cases h2 : cancel i = true
      · rw [loop_cancel_exit tT iT false cancel rnd i cur fuel h1 h2]
        simp
      · have hf : cancel i = false := by simpa using h2
        have hgt : tT < cur := lt_of_le_of_ne hlo (fun he => h1 he.symm)
        have hcur2 : (increment_decrement_temperature_callback false (rnd i).1 (rnd i).2
              cur).response.temperature = cur ∨
            (increment_decrement_temperature_callback false (rnd i).1 (rnd i).2
              cur).response.temperature = cur + -1 := by
          by_cases hr : (rnd i).1 % 2 = 0
          · left
            rw [step_refused_eq false (rnd i).1 (rnd i).2 cur hr]
          · right
            rw [step_not_refused false (rnd i).1 (rnd i).2 cur hr]
            exact wrap16_eq_self (cur + -1) (by omega) (by omega)
        rw [loop_iterate tT iT false cancel rnd i cur fuel h1 hf]
        rcases hcur2 with hc | hc <;> rw [hc]
        · obtain ⟨hch, hbd⟩ := ih (i + 1) cur hlo hhi
          refine ⟨List.chain'_cons.mpr ⟨le_refl cur, hch⟩, ?_⟩
          intro v hv
          rcases List.mem_cons.mp hv with hv | hv
          · rw [hv]
            exact ⟨hlo, hhi⟩
          · exact hbd v hv
        · obtain ⟨hch, hbd⟩ := ih (i + 1) (cur + -1) (by omega) (by omega)
          have hstep : cur + -1 ≤ cur := by omega
          have hb1 : tT ≤ cur + -1 := by omega
          have hb2 : cur + -1 ≤ (32767 : Int) := by omega
          refine ⟨List.chain'_cons.mpr ⟨hstep, hch⟩, ?_⟩
          intro v hv
          rcases List.mem_cons.mp hv with hv | hv
          · rw [hv]
            exact ⟨hb1, hb2⟩
          · exact hbd v hv

/-! ## Claim theorems -/

/-- C1: a set-temperature goal is accepted exactly when the busy flag is
clear (a new goal is rejected while one is active), accepting sets the
flag, and the flag stays set for the task's entire lifetime: after any
fuel-bounded prefix of the execution it is clear exactly when the task
terminated (completed or cancelled). -/
theorem C1_single_flight :
    (handle_set_temperature_action_callback true = (GoalResponse.REJECT, true)) ∧
    (handle_set_temperature_action_callback false =
      (GoalResponse.ACCEPT_AND_EXECUTE, true)) ∧
    (∀ b : Bool,
      (handle_set_temperature_action_callback b).1 = GoalResponse.REJECT ↔ b = true) ∧
    (∀ (tT cT : Int) (cancel : Nat → Bool) (rnd : Nat → Nat × Nat) (fuel : Nat),
      ((accepted_set_temperature_action_callback tT cT cancel rnd fuel).busy = false ↔
        (accepted_set_temperature_action_callback tT cT cancel rnd fuel).outcome ≠
          TaskOutcome.running)) := by
  refine ⟨rfl, rfl, ?_, ?_⟩
  · intro b
    cases b <;> decide
  · intro tT cT cancel rnd fuel
    exact loop_busy_iff tT cT (decide (tT > cT)) cancel rnd fuel 0 cT

/-- C2 counterexample: with target = initial = 20 the task completes at
once, but publishes no feedback at all — in particular no feedback or
result carrying progress 100 — so "completes with progress 100" does not
hold of any reported value. -/
theorem C2_counterexample :
    accepted_set_temperature_action_callback 20 20 (fun _ => false) (fun _ => (1, 0)) 5 =
      { outcome := TaskOutcome.succeeded { temperature := 20 }
        feedbacks := [], busy := false, steps := 0 } := by
  rfl

/-- C2 (amended): for every task whose target equals the initial value,
the task completes immediately through `succeed` with the initial value as
result, performing zero step invocations and publishing zero feedback
messages — hence the division by (target - initial) in the progress
computation (which occurs only when a feedback is built) is never
executed. -/
theorem C2_degenerate_target (tT cT : Int) (cancel : Nat → Bool)
    (rnd : Nat → Nat × Nat) (fuel : Nat) (h : tT = cT) :
    accepted_set_temperature_action_callback tT cT cancel rnd fuel =
      { outcome := TaskOutcome.succeeded { temperature := cT }
        feedbacks := [], busy := false, steps := 0 } := by
  subst h
  unfold accepted_set_temperature_action_callback
  exact loop_succeed tT tT (decide (tT > tT)) cancel rnd 0 tT fuel rfl

/-- C2 witness: a concrete degenerate task at 33. -/
theorem C2_degenerate_target_witness :
    accepted_set_temperature_action_callback 33 33 (fun _ => false) (fun _ => (0, 0)) 7 =
      { outcome := TaskOutcome.succeeded { temperature := 33 }
        feedbacks := [], busy := false, steps := 0 } :=
  C2_degenerate_target 33 33 (fun _ => false) (fun _ => (0, 0)) 7 rfl

/-- C5: a cancellation observed at an iteration boundary stops the loop at
once (no further feedback, no further step), reports the current value —
which is the value as of the last completed step — with the optional
success/message fields left empty, and clears the busy flag. -/
theorem C5_cancellation :
    (∀ (tT iT : Int) (inc : Bool) (cancel : Nat → Bool) (rnd : Nat → Nat × Nat)
      (i : Nat) (cur : Int) (fuel : Nat), cur ≠ tT → cancel i = true →
      set_temperature_loop tT iT inc cancel rnd i cur (fuel + 1) =
        { outcome := TaskOutcome.canceled
            { temperature := cur, success := none, message := none }
          feedbacks := [], busy := false, steps := 0 }) ∧
    (∀ (tT cT : Int) (cancel : Nat → Bool) (rnd : Nat → Nat × Nat) (fuel : Nat)
      (r : SetTemperatureResult),
      (accepted_set_temperature_action_callback tT cT cancel rnd fuel).outcome =
          TaskOutcome.canceled r →
        r.success = none ∧ r.message = none ∧
        r.temperature = last_temperature cT
          (accepted_set_temperature_action_callback tT cT cancel rnd fuel).feedbacks ∧
        (accepted_set_temperature_action_callback tT cT cancel rnd fuel).busy = false) := by
  constructor
  · intro tT iT inc cancel rnd i cur fuel h1 h2
    exact loop_cancel_exit tT iT inc cancel rnd i cur fuel h1 h2
  · intro tT cT cancel rnd fuel r h
    exact loop_canceled_result tT cT (decide (tT > cT)) cancel rnd fuel 0 cT r h

/-- C5 witness: cancelling right at the first iteration boundary of a task
from 20 toward 25 ends it with result 20, empty optional fields, busy flag
cleared and no feedback. -/
theorem C5_cancellation_witness :
    set_temperature_loop 25 20 true (fun _ => true) (fun _ => (1, 0)) 0 20 3 =
      { outcome := TaskOutcome.canceled
          { temperature := 20, success := none, message := none }
        feedbacks := [], busy := false, steps := 0 } :=
  C5_cancellation.1 25 20 true (fun _ => true) (fun _ => (1, 0)) 0 20 2 (by decide) rfl

/-- C6: with an in-range initial value and target, once > means the values
observed across iterations never decrease and never exceed the target, and
once < they never increase and never drop below it (each step repeats the
value or moves it by one toward the target). -/
theorem C6_monotone_approach (tT cT : Int) (cancel : Nat → Bool)
    (rnd : Nat → Nat × Nat) (fuel : Nat)
    (hc1 : -32768 ≤ cT) (hc2 : cT ≤ 32767) (ht1 : -32768 ≤ tT) (ht2 : tT ≤ 32767) :
    (tT > cT →
      List.Chain' (fun a b => a ≤ b)
        (cT :: ((accepted_set_temperature_action_callback tT cT cancel rnd
          fuel).feedbacks.map SetTemperatureFeedback.temperature)) ∧
      ∀ v ∈ (accepted_set_temperature_action_callback tT cT cancel rnd
          fuel).feedbacks.map SetTemperatureFeedback.temperature, v ≤ tT) ∧
    (tT < cT →
      List.Chain' (fun a b => b ≤ a)
        (cT :: ((accepted_set_temperature_action_callback tT cT cancel rnd
          fuel).feedbacks.map SetTemperatureFeedback.temperature)) ∧
      ∀ v ∈ (accepted_set_temperature_action_callback tT cT cancel rnd
          fuel).feedbacks.map SetTemperatureFeedback.temperature, tT ≤ v) := by
  constructor
  · intro hgt
    have hd : decide (tT > cT) = true := decide_eq_true hgt
    unfold accepted_set_temperature_action_callback
    rw [hd]
    obtain ⟨hch, hbd⟩ := loop_mono_up tT cT cancel rnd ht2 fuel 0 cT hc1 (le_of_lt hgt)
    exact ⟨hch, fun v hv => (hbd v hv).2⟩
  · intro hlt
    have hd : decide (tT > cT) = false := decide_eq_false (not_lt.mpr (le_of_lt hlt))
    unfold accepted_set_temperature_action_callback
    rw [hd]
    obtain ⟨hch, hbd⟩ := loop_mono_down tT cT cancel rnd ht1 fuel 0 cT (le_of_lt hlt) hc2
    exact ⟨hch, fun v hv => (hbd v hv).1⟩

/-- C6 witness: a concrete upward task from 20 to 22 with always-succeeding
step draws yields a non-decreasing value sequence. -/
theorem C6_monotone_approach_witness :
    List.Chain' (fun a b => a ≤ b)
      ((20 : Int) :: ((accepted_set_temperature_action_callback 22 20 (fun _ => false)
        (fun _ => (1, 0)) 5).feedbacks.map SetTemperatureFeedback.temperature)) :=
  ((C6_monotone_approach 22 20 (fun _ => false) (fun _ => (1, 0)) 5
    (by decide) (by decide) (by decide) (by decide)).1 (by decide)).1

/-- C7: every iteration that invokes a step takes the new value from the
step response (refused or not), publishes exactly one feedback carrying
that value and the progress `(current - initial) * 100 / (target -
initial)` (C++ truncating division), and one feedback is published per
step invocation. -/
theorem C7_progress_reporting :
    (∀ (iT tT cur : Int), set_temperature_progress iT tT cur =
      Int.tdiv ((cur - iT) * 100) (tT - iT)) ∧
    (∀ (tT iT : Int) (inc : Bool) (cancel : Nat → Bool) (rnd : Nat → Nat × Nat)
      (i : Nat) (cur : Int) (fuel : Nat), cur ≠ tT → cancel i = false →
      set_temperature_loop tT iT inc cancel rnd i cur (fuel + 1) =
        { outcome := (set_temperature_loop tT iT inc cancel rnd (i + 1)
            (increment_decrement_temperature_callback inc (rnd i).1 (rnd i).2
              cur).response.temperature fuel).outcome
          feedbacks :=
            { temperature := (increment_decrement_temperature_callback inc (rnd i).1
                (rnd i).2 cur).response.temperature
              progress := set_temperature_progress iT tT
                (increment_decrement_temperature_callback inc (rnd i).1 (rnd i).2
                  cur).response.temperature } ::
            (set_temperature_loop tT iT inc cancel rnd (i + 1)
              (increment_decrement_temperature_callback inc (rnd i).1 (rnd i).2
                cur).response.temperature fuel).feedbacks
          busy := (set_temperature_loop tT iT inc cancel rnd (i + 1)
            (increment_decrement_temperature_callback inc (rnd i).1 (rnd i).2
              cur).response.temperature fuel).busy
          steps := (set_temperature_loop tT iT inc cancel rnd (i + 1)
            (increment_decrement_temperature_callback inc (rnd i).1 (rnd i).2
              cur).response.temperature fuel).steps + 1 }) ∧
    (∀ (tT cT : Int) (cancel : Nat → Bool) (rnd : Nat → Nat × Nat) (fuel : Nat),
      (accepted_set_temperature_action_callback tT cT cancel rnd fuel).feedbacks.length =
        (accepted_set_temperature_action_callback tT cT cancel rnd fuel).steps) ∧
    (∀ (tT cT : Int) (cancel : Nat → Bool) (rnd : Nat → Nat × Nat) (fuel : Nat),
      ∀ fb ∈ (accepted_set_temperature_action_callback tT cT cancel rnd fuel).feedbacks,
        fb.progress = set_temperature_progress cT tT fb.temperature) := by
  refine ⟨fun iT tT cur => rfl, ?_, ?_, ?_⟩
  · intro tT iT inc cancel rnd i cur fuel h1 h2
    exact loop_iterate tT iT inc cancel rnd i cur fuel h1 h2
  · intro tT cT cancel rnd fuel
    exact loop_feedback_count tT cT (decide (tT > cT)) cancel rnd fuel 0 cT
  · intro tT cT cancel rnd fuel
    exact loop_feedback_progress tT cT (decide (tT > cT)) cancel rnd fuel 0 cT

/-- C7 witness: one successful iteration of a task from 20 toward 25
publishes exactly one feedback with value 21 and progress
(21 - 20) * 100 / (25 - 20) = 20, then runs out of fuel. -/
theorem C7_progress_reporting_witness :
    set_temperature_loop 25 20 true (fun _ => false) (fun _ => (1, 0)) 0 20 1 =
      { outcome := TaskOutcome.running
        feedbacks := [{ temperature := 21, progress := 20 }]
        busy := true, steps := 1 } :=
  C7_progress_reporting.2.1 25 20 true (fun _ => false) (fun _ => (1, 0)) 0 20 0
    (by decide) rfl

/-- C9: the cancel handler returns `ACCEPT` for any goal handle, regardless
of any controller state (it reads none): a cancel request is never
rejected. -/
theorem C9_cancel_always_accepted :
    ∀ (α : Type) (gh : α),
      cancel_set_temperature_action_callback gh = CancelResponse.ACCEPT := by
  intro α gh
  rfl

/-- C10: `current_temperature` is a C++ `short` (16-bit signed), so a
successful increment step at 32767 wraps to -32768 (the difference from
the unwrapped 32768 is a multiple of 2^16), and a successful decrement at
-32768 wraps to 32767; no range guard intervenes. -/
theorem C10_int16_wraparound (r1 r2 : Nat) (hr : r1 % 2 ≠ 0) :
    (increment_decrement_temperature_callback true r1 r2 32767).response.success = true ∧
    (increment_decrement_temperature_callback true r1 r2 32767).new_temperature = -32768 ∧
    ((increment_decrement_temperature_callback true r1 r2 32767).new_temperature -
        (32767 + 1)) % 65536 = 0 ∧
    (increment_decrement_temperature_callback false r1 r2 (-32768)).new_temperature =
      32767 := by
  rw [step_not_refused true r1 r2 32767 hr, step_not_refused false r1 r2 (-32768) hr]
  refine ⟨rfl, ?_, ?_, ?_⟩
  · show wrap16 (32767 + 1) = -32768
    decide
  · show (wrap16 (32767 + 1) - (32767 + 1)) % 65536 = 0
    decide
  · show wrap16 (-32768 + -1) = 32767
    decide

/-- C10 witness: the wraparound at a concrete odd refusal draw. -/
theorem C10_int16_wraparound_witness :
    (increment_decrement_temperature_callback true 1 0 32767).new_temperature =
      -32768 :=
  (C10_int16_wraparound 1 0 (by decide)).2.1

/-- C4: the step refuses exactly when the `rand() % 2` draw is 0 (one of
the two equally likely residues, i.e. probability 1/2), and every refusal
returns `success = false` with the temperature unchanged, no sleep, and an
explanatory message — via the response fields, never an exception (the
embedded callback is a total function into `StepOutput`). -/
theorem C4_step_refusal :
    (∀ (inc : Bool) (r1 r2 : Nat) (temp : Int),
      (increment_decrement_temperature_callback inc r1 r2 temp).response.success = false ↔
        r1 % 2 = 0) ∧
    ((Finset.range 2).filter (fun r => r % 2 = 0)).card = 1 ∧
    (∀ (inc : Bool) (r1 r2 : Nat) (temp : Int), r1 % 2 = 0 →
      (increment_decrement_temperature_callback inc r1 r2 temp).response.success = false ∧
      (increment_decrement_temperature_callback inc r1 r2 temp).response.temperature = temp ∧
      (increment_decrement_temperature_callback inc r1 r2 temp).new_temperature = temp ∧
      (increment_decrement_temperature_callback inc r1 r2 temp).slept = none ∧
      (increment_decrement_temperature_callback inc r1 r2 temp).response.message =
        "Temperature cannot be " ++ (if inc then "increased" else "decreased")) := by
  refine ⟨?_, by decide, ?_⟩
  · intro inc r1 r2 temp
    by_cases h : r1 % 2 = 0 <;> simp [increment_decrement_temperature_callback, h]
  · intro inc r1 r2 temp h
    simp [increment_decrement_temperature_callback, h]

/-- C4 witness: a concrete refusal (draw 0) at temperature 20. -/
theorem C4_step_refusal_witness :
    (increment_decrement_temperature_callback true 0 0 20).response.success = false ∧
    (increment_decrement_temperature_callback true 0 0 20).response.temperature = 20 ∧
    (increment_decrement_temperature_callback true 0 0 20).new_temperature = 20 ∧
    (increment_decrement_temperature_callback true 0 0 20).slept = none ∧
    (increment_decrement_temperature_callback true 0 0 20).response.message =
      "Temperature cannot be " ++ (if true then "increased" else "decreased") :=
  C4_step_refusal.2.2 true 0 0 20 (by decide)

/-- C3 counterexample: no `rand()` draw produces a 500 ms sleep
(`rand() % 400 + 100` is at most 499), so the sleep is not uniform over
the closed interval [100, 500]; and at temperature 32767 a successful
increment step does not change the value by exactly +1 (it wraps). -/
theorem C3_counterexample :
    (¬ ∃ r : Nat, step_sleep_duration r = 500) ∧
    (increment_decrement_temperature_callback true 1 0 32767).response.success = true ∧
    (increment_decrement_temperature_callback true 1 0 32767).new_temperature ≠
      32767 + 1 := by
  refine ⟨?_, by decide, by decide⟩
  rintro ⟨r, h⟩
  unfold step_sleep_duration at h
  omega

/-- C3 (amended): a non-refused step sleeps `rand() % 400 + 100` ms — a
uniformly random duration in [100, 499] (every such duration is
attainable) — then, provided the updated value stays within the 16-bit
range, changes the value by exactly +1 (increment) or -1 (decrement), and
returns `success = true` with the new value and a message. -/
theorem C3_step_success (inc : Bool) (r1 r2 : Nat) (temp : Int)
    (hr : r1 % 2 ≠ 0)
    (hlo : -32768 ≤ temp + (if inc then 1 else -1))
    (hhi : temp + (if inc then 1 else -1) ≤ 32767) :
    (increment_decrement_temperature_callback inc r1 r2 temp).slept =
      some (step_sleep_duration r2) ∧
    100 ≤ step_sleep_duration r2 ∧ step_sleep_duration r2 ≤ 499 ∧
    (∀ d : Nat, 100 ≤ d → d ≤ 499 → ∃ r : Nat, step_sleep_duration r = d) ∧
    (increment_decrement_temperature_callback inc r1 r2 temp).new_temperature =
      temp + (if inc then 1 else -1) ∧
    (increment_decrement_temperature_callback inc r1 r2 temp).response.success = true ∧
    (increment_decrement_temperature_callback inc r1 r2 temp).response.temperature =
      (increment_decrement_temperature_callback inc r1 r2 temp).new_temperature ∧
    (increment_decrement_temperature_callback inc r1 r2 temp).response.message =
      "Temperature " ++ (if inc then "increased" else "decreased") ++ " successfully" := by
  have hx := wrap16_eq_self (temp + (if inc then 1 else -1)) hlo hhi
  unfold increment_decrement_temperature_callback
  rw [if_neg hr]
  refine ⟨rfl, ?_, ?_, ?_, hx, rfl, rfl, rfl⟩
  · unfold step_sleep_duration; omega
  · unfold step_sleep_duration; omega
  · intro d h1 h2
    exact ⟨d - 100, by unfold step_sleep_duration; omega⟩

/-- C3 witness: a concrete successful increment at temperature 20. -/
theorem C3_step_success_witness :
    (increment_decrement_temperature_callback true 1 7 20).new_temperature =
      20 + (if true then 1 else -1) :=
  (C3_step_success true 1 7 20 (by decide) (by decide) (by decide)).2.2.2.2.1

/-- C8 counterexample: the startup value `rand() % 85 + 15` never equals
100, so the startup distribution is not uniform over the closed interval
[15, 100]. -/
theorem C8_counterexample :
    ¬ ∃ r : Nat, node_constructor_temperature r = 100 := by
  rintro ⟨r, h⟩
  unfold node_constructor_temperature at h
  omega

/-- C8 (amended): at startup the value is a uniform-random integer in
[15, 99] (always in range, and every value in that range attainable), and
the only other value accesses in the node — the query service and the
monitor timer — leave it unchanged (every mutation goes through the step
operation). -/
theorem C8_startup_range :
    (∀ r : Nat, 15 ≤ node_constructor_temperature r ∧
      node_constructor_temperature r ≤ 99) ∧
    (∀ v : Int, 15 ≤ v → v ≤ 99 → ∃ r : Nat, node_constructor_temperature r = v) ∧
    (∀ t : Int, (get_current_temperature_callback t).2 = t ∧
      (get_current_temperature_callback t).1 = t ∧
      (temperature_monitor_callback t).2 = t) := by
  refine ⟨?_, ?_, ?_⟩
  · intro r
    unfold node_constructor_temperature
    omega
  · intro v h1 h2
    refine ⟨(v - 15).toNat, ?_⟩
    unfold node_constructor_temperature
    omega
  · intro t
    exact ⟨rfl, rfl, rfl⟩

/-- C8 witness: 42 is an attainable startup value. -/
theorem C8_startup_range_witness :
    ∃ r : Nat, node_constructor_temperature r = 42 :=
  C8_startup_range.2.1 42 (by decide) (by decide)

end TemperatureControl
